import Mathlib

/-!
Verification of the Drawpile session recording store and network session
client against their specification.

The project store side is a shallow embedding of the C functions in the
engine's project module: the opaque `DP_Project` struct becomes the
`Project` structure, the sqlite database's `messages` table becomes an
explicit list of rows, and each fallible sqlite call (bind, step, prepare)
is driven by an explicit environment of boolean outcomes, so the embedding
covers both the success paths and the failure paths of the C code.

The network client side embeds the compatibility filtering of outbound
message batches and the catch-up progress tracking of the client class.
-/

set_option autoImplicit false

namespace Drawpile

/-! ## Constants from the project header -/

def DP_PROJECT_APPLICATION_ID : Int := 520585024

def DP_PROJECT_USER_VERSION : Int := 1

def DP_PROJECT_CHECK_ERROR_OPEN : Int := -1

def DP_PROJECT_CHECK_ERROR_READ : Int := -2

def DP_PROJECT_CHECK_ERROR_HEADER : Int := -3

def DP_PROJECT_CHECK_ERROR_MAGIC : Int := -4

def DP_PROJECT_CHECK_ERROR_APPLICATION_ID : Int := -5

def DP_PROJECT_CHECK_ERROR_USER_VERSION : Int := -6

/-! ## Header check (DP_project_check)

The C function reads the first 72 bytes of the file, compares the 16-byte
sqlite magic, then reads two big-endian signed 32-bit integers at byte
offsets 68 (application id) and 60 (user version). We model the file level
input as: whether the open succeeded, whether the read errored, and the
bytes actually read (at most 72 of them). Bytes are naturals taken mod 256,
matching the unsigned char buffer of the C code. -/

/-- The 16-byte sqlite format magic compared by memcmp in DP_project_check. -/
def sqliteMagic : List Nat :=
  [0x53, 0x51, 0x4c, 0x69, 0x74, 0x65, 0x20, 0x66,
   0x6f, 0x72, 0x6d, 0x61, 0x74, 0x20, 0x33, 0x00]

/-- Interpretation of a 32-bit word as a signed C int, as returned by the
big-endian read helper. -/
def toInt32 (u : Nat) : Int :=
  if u < 2147483648 then (u : Int) else (u : Int) - 4294967296

/-- DP_read_bigendian_int32: big-endian signed 32-bit read at an offset of
a byte buffer. -/
def DP_read_bigendian_int32 (bytes : List Nat) (off : Nat) : Int :=
  toInt32 ((bytes.getD off 0 % 256) * 16777216 + (bytes.getD (off + 1) 0 % 256) * 65536
    + (bytes.getD (off + 2) 0 % 256) * 256 + bytes.getD (off + 3) 0 % 256)

/-- The file-level input of DP_project_check: whether DP_file_input_new
succeeds, whether DP_input_read reports an error, and the bytes it reads
(the first min(size, 72) bytes of the file). -/
structure CheckInput where
  openOk : Bool
  readError : Bool
  bytes : List Nat
deriving Repr, DecidableEq

/-- DP_project_check, step for step from the C source. -/
def DP_project_check (inp : CheckInput) : Int :=
  if inp.openOk = false then DP_PROJECT_CHECK_ERROR_OPEN
  else if inp.readError = true then DP_PROJECT_CHECK_ERROR_READ
  else if inp.bytes.length < 72 then DP_PROJECT_CHECK_ERROR_HEADER
  else if (inp.bytes.take 16).map (· % 256) ≠ sqliteMagic then DP_PROJECT_CHECK_ERROR_MAGIC
  else if DP_read_bigendian_int32 inp.bytes 68 ≠ DP_PROJECT_APPLICATION_ID then
    DP_PROJECT_CHECK_ERROR_APPLICATION_ID
  else if DP_read_bigendian_int32 inp.bytes 60 < 1 then DP_PROJECT_CHECK_ERROR_USER_VERSION
  else DP_read_bigendian_int32 inp.bytes 60

/-! ## Open-time header validation (check_header) -/

/-- check_header from the C source: the pragma values must equal the two
project constants exactly. -/
def check_header (application_id user_version : Int) : Bool :=
  application_id = DP_PROJECT_APPLICATION_ID && user_version = DP_PROJECT_USER_VERSION

/-- Modelled from the spec: sqlite itself is an external dependency not
under src. Per the external-interface section of the spec, the on-disk
format stores the 4-byte big-endian application identifier at byte offset
68 and the 4-byte big-endian user version at byte offset 60, behind the
fixed 16-byte magic signature; sqlite refuses to open an existing non-empty
file that lacks the magic or a complete header. `sqliteParses` states that
precondition on the raw bytes of a non-empty file. -/
def sqliteParses (bytes : List Nat) : Bool :=
  (bytes.take 16).map (· % 256) = sqliteMagic && 72 ≤ bytes.length

/-- Modelled from the spec: the value sqlite reports for pragma
application_id of a parsed file is the big-endian 32-bit integer at byte
offset 68. -/
def pragmaApplicationId (bytes : List Nat) : Int :=
  DP_read_bigendian_int32 bytes 68

/-- Modelled from the spec: the value sqlite reports for pragma
user_version of a parsed file is the big-endian 32-bit integer at byte
offset 60. -/
def pragmaUserVersion (bytes : List Nat) : Int :=
  DP_read_bigendian_int32 bytes 60

/-- The header validation DP_project_open applies to an existing non-empty
file: sqlite must accept the file and check_header must accept the pragma
values found in it. -/
def open_header_ok (bytes : List Nat) : Bool :=
  sqliteParses bytes && check_header (pragmaApplicationId bytes) (pragmaUserVersion bytes)

/-! ## The project store state

The DP_Project struct holds the database connection, the current session
id, the per-session sequence counter and the prepared statements. We embed
it with the database's messages table made explicit (the list of rows the
message-insert statement has committed) and the process-visible error slot
written by DP_error_set made explicit as a structured value. -/

/-- One row of the messages table, as bound by the message-insert
statement: (session_id, sequence_id, type, context_id, body). The
recorded_at timestamp column is filled by the database with the current
wall clock and is not modelled. -/
structure MessageRow where
  session_id : Int
  sequence_id : Int
  msg_type : Int
  context_id : Int
  body : List Nat
deriving Repr, DecidableEq

/-- The structured content of the error slot set by DP_error_set in the
paths modelled here. -/
inductive DPError where
  /-- Error opening session: session (id) already open. -/
  | sessionAlreadyOpen (id : Int)
  /-- No open session. -/
  | noOpenSession
  /-- Any sqlite bind/step error, captured with code and message in C. -/
  | dbError
deriving Repr, DecidableEq

/-- The DP_Project struct: current session id, per-session sequence
counter, plus the explicit messages table and error slot. -/
structure Project where
  session_id : Int
  sequence_id : Int
  messages : List MessageRow
  lastError : Option DPError
deriving Repr, DecidableEq

/-- DP_project_session_id: accessor for the current session id. -/
def DP_project_session_id (prj : Project) : Int :=
  prj.session_id

/-- A protocol message as seen by the store: its type code, context id and
the result of DP_message_serialize_body into the reusable buffer. A
zero-length serialization result is the serialization failure case. -/
structure DPMessage where
  msg_type : Int
  context_id : Int
  serializedBody : List Nat
deriving Repr, DecidableEq

/-! ## Session open -/

/-- Outcomes of the fallible sqlite calls made by one
DP_project_session_open call: the four parameter binds, the statement
step, and the row id sqlite assigns to the inserted session row on
success. -/
structure OpenEnv where
  bindSourceOk : Bool
  bindParamOk : Bool
  bindProtocolOk : Bool
  bindPidOk : Bool
  execOk : Bool
  newRowId : Int
deriving Repr, DecidableEq

/-- DP_project_session_open. If a session is already open it fails with
the error naming the open session id and touches nothing else. Otherwise
it resets the sequence counter to 0 first, then attempts the binds and the
insert; only a fully successful write stores the new row id as the current
session id (ps_exec_write writes the out parameter only on success). -/
def DP_project_session_open (prj : Project) (env : OpenEnv) : Bool × Project :=
  if prj.session_id = 0 then
    let prj1 : Project := { prj with sequence_id := 0 }
    if env.bindSourceOk && env.bindParamOk && env.bindProtocolOk && env.bindPidOk
        && env.execOk then
      (true, { prj1 with session_id := env.newRowId })
    else
      (false, { prj1 with lastError := some .dbError })
  else
    (false, { prj with lastError := some (.sessionAlreadyOpen prj.session_id) })

/-! ## Session close -/

/-- Outcomes of the fallible sqlite calls made by one
DP_project_session_close call: the session id bind and the update step. -/
structure CloseEnv where
  bindOk : Bool
  execOk : Bool
deriving Repr, DecidableEq

/-- DP_project_session_close. Returns -1 when no session is open; else it
clears the current session id before attempting the update and returns 1
when the update succeeded and 0 when it failed. -/
def DP_project_session_close (prj : Project) (env : CloseEnv) : Int × Project :=
  if prj.session_id = 0 then
    (-1, prj)
  else
    let prj1 : Project := { prj with session_id := 0 }
    if env.bindOk && env.execOk then
      (1, prj1)
    else
      (0, { prj1 with lastError := some .dbError })

/-! ## Message record -/

/-- Outcomes of the fallible sqlite calls made by one
DP_project_message_record call: the five parameter binds and the insert
step. -/
structure RecordEnv where
  bindSessionOk : Bool
  bindSeqOk : Bool
  bindTypeOk : Bool
  bindCtxOk : Bool
  bindBlobOk : Bool
  execOk : Bool
deriving Repr, DecidableEq

/-- All sqlite calls of a record attempt succeed. -/
def RecordEnv.allOk (env : RecordEnv) : Bool :=
  env.bindSessionOk && env.bindSeqOk && env.bindTypeOk && env.bindCtxOk
    && env.bindBlobOk && env.execOk

/-- DP_project_message_record. Fails up front when no session is open or
when the body serializes to zero length. The chain of binds
short-circuits: the sequence counter is pre-incremented as the argument of
the second bind, so the increment happens once the first bind has
succeeded and before the second bind's own outcome (and the insert's) is
known; a failure of the first bind leaves the counter untouched. Only a
fully successful chain appends the row to the messages table. -/
def DP_project_message_record (prj : Project) (msg : DPMessage) (env : RecordEnv) :
    Bool × Project :=
  if prj.session_id = 0 then
    (false, { prj with lastError := some .noOpenSession })
  else if msg.serializedBody.length = 0 then
    (false, prj)
  else if env.bindSessionOk = false then
    (false, { prj with lastError := some .dbError })
  else
    let prj1 : Project := { prj with sequence_id := prj.sequence_id + 1 }
    if env.bindSeqOk && env.bindTypeOk && env.bindCtxOk && env.bindBlobOk && env.execOk then
      (true, { prj1 with
        messages := prj1.messages
          ++ [⟨prj.session_id, prj1.sequence_id, msg.msg_type, msg.context_id,
               msg.serializedBody⟩] })
    else
      (false, { prj1 with lastError := some .dbError })

/-- Run a list of record calls in order, returning the final state and the
list of boolean results. -/
def runRecords (prj : Project) : List (DPMessage × RecordEnv) → Project × List Bool
  | [] => (prj, [])
  | (msg, env) :: rest =>
    let r := DP_project_message_record prj msg env
    let rr := runRecords r.2 rest
    (rr.1, r.1 :: rr.2)

/-! ## Prepared statement setup in DP_project_open

After header checks and migrations, DP_project_open prepares the three
reusable statements in a loop. On a prepare failure at index i the C code
runs `for (j = 0; j < i; ++j) sqlite3_finalize(stmts[i]);`, closes the
database and returns NULL. We model the stmts array as a list of slots
holding `none` while uninitialized and `some i` once statement i is
prepared, and record the exact slot values passed to sqlite3_finalize
during that cleanup loop. -/

/-- Result of the statement preparation phase of DP_project_open: the
final statements array on success, the values finalized during cleanup on
failure, and whether the database was closed (the failure path closes
it). -/
structure PrepareOutcome where
  handle : Option (List (Option Nat))
  finalized : List (Option Nat)
  dbClosed : Bool
deriving Repr, DecidableEq

/-- The preparation loop over the statement indices. `prepOk i` is whether
sqlite3_prepare_v3 succeeds for statement i. On failure at index i the
cleanup loop finalizes the value of slot i (not slot j) once per j < i,
exactly as the C source does. -/
def prepareLoop (prepOk : Nat → Bool) : List Nat → List (Option Nat) → PrepareOutcome
  | [], stmts => ⟨some stmts, [], false⟩
  | i :: rest, stmts =>
    if prepOk i then
      prepareLoop prepOk rest (stmts.set i (some i))
    else
      ⟨none, List.replicate i (stmts.getD i none), true⟩

/-- The statement preparation phase of DP_project_open: three statements
(message insert, session open, session close), array uninitialized at the
start. -/
def DP_project_open_prepare (prepOk : Nat → Bool) : PrepareOutcome :=
  prepareLoop prepOk [0, 1, 2] (List.replicate 3 none)

/-! ## Network session client: compatibility filtering

Client::sendMessages forwards the batch unchanged unless the connection is
in compatibility mode, in which case each message runs through
makeMessageBackwardCompatible; a null result drops the message (with a
warning log), any other result is appended. The translator itself is an
external collaborator, so it is a parameter here. The returned list is the
batch handed on to sendCompatibleMessages (which sends it to the server,
or loops it back locally; an empty batch sends nothing). -/

/-- Client::filterCompatibleMessages: per-message translation, dropping
messages whose compatible form is null. -/
def filterCompatibleMessages {α : Type} (translate : α → Option α) : List α → List α
  | [] => []
  | msg :: rest =>
    match translate msg with
    | none => filterCompatibleMessages translate rest
    | some compatibleMsg => compatibleMsg :: filterCompatibleMessages translate rest

/-- Client::sendMessages: the batch that reaches sendCompatibleMessages,
depending on the compatibility mode flag. -/
def sendMessages {α : Type} (compatibilityMode : Bool) (translate : α → Option α)
    (msgs : List α) : List α :=
  if compatibilityMode then filterCompatibleMessages translate msgs else msgs

/-! ## Network session client: catch-up progress

The client fields m_catchupTo, m_caughtUp and m_catchupProgress drive the
catchupProgress notifications. A Catchup server reply sets the target and
zeroes the counters, emitting 0 (or 100 for a non-positive target);
afterwards each received batch of messages advances the counters in
Client::handleMessages, emitting the integer percentage only when it
changed, and emitting exactly 100 (and leaving catch-up mode) once the
count reaches the target. Counts are naturals: batch sizes and the
declared backlog are non-negative. -/

/-- The catch-up tracking fields of the client. -/
structure CatchupState where
  catchupTo : Nat
  caughtUp : Nat
  catchupProgress : Nat
deriving Repr, DecidableEq

/-- The catch-up part of Client::handleMessages for one received batch of
`count` messages: returns the new state and the list of emitted
catchupProgress values (empty or a singleton). -/
def handleMessagesCatchup (st : CatchupState) (count : Nat) : CatchupState × List Nat :=
  if 0 < st.catchupTo then
    let caughtUp := st.caughtUp + count
    if st.catchupTo ≤ caughtUp then
      ({ st with caughtUp := caughtUp, catchupTo := 0 }, [100])
    else
      let progress := 100 * caughtUp / st.catchupTo
      if progress ≠ st.catchupProgress then
        ({ st with caughtUp := caughtUp, catchupProgress := progress }, [progress])
      else
        ({ st with caughtUp := caughtUp }, [])
  else
    (st, [])

/-- The Catchup case of Client::handleServerReply: reset the counters to
the declared count and emit the initial progress value. -/
def catchupAnnounce (count : Nat) : CatchupState × List Nat :=
  ({ catchupTo := count, caughtUp := 0, catchupProgress := 0 },
   [if 0 < count then 0 else 100])

/-- Deliver a list of batches (by size) to the catch-up tracker, collecting
all emitted progress values in order. -/
def runCatchup (st : CatchupState) : List Nat → CatchupState × List Nat
  | [] => (st, [])
  | count :: rest =>
    let r := handleMessagesCatchup st count
    let rr := runCatchup r.1 rest
    (rr.1, r.2 ++ rr.2)

/-- The full emission trace of a catch-up round: the announcement's
emission followed by everything emitted while delivering the batches. -/
def catchupTrace (target : Nat) (batches : List Nat) : List Nat :=
  let a := catchupAnnounce target
  a.2 ++ (runCatchup a.1 batches).2

/-! ## Theorems -/

/-- Helper: a message in the batch whose translation is non-null has its
compatible form in the filtered batch. -/
lemma mem_filterCompatibleMessages {α : Type} (translate : α → Option α)
    (msgs : List α) (m d : α) (hm : translate m = some d) (hmem : m ∈ msgs) :
    d ∈ filterCompatibleMessages translate msgs := by
  induction msgs with
  | nil => cases hmem
  | cons x xs ih =>
    rcases List.mem_cons.mp hmem with h | h
    · subst h
      simp [filterCompatibleMessages, hm]
    · cases hx : translate x with
      | none => simpa [filterCompatibleMessages, hx] using ih h
      | some y =>
        simp only [filterCompatibleMessages, hx, List.mem_cons]
        exact Or.inr (ih h)

/-- C2: for every store whose current session id is nonzero, session_open
returns false, sets the error naming the conflicting open session id, and
leaves the current session id and the sequence counter unchanged. -/
theorem session_open_conflict_rejected (prj : Project) (env : OpenEnv)
    (h : prj.session_id ≠ 0) :
    (DP_project_session_open prj env).1 = false ∧
    (DP_project_session_open prj env).2.session_id = prj.session_id ∧
    (DP_project_session_open prj env).2.sequence_id = prj.sequence_id ∧
    (DP_project_session_open prj env).2.lastError
      = some (DPError.sessionAlreadyOpen prj.session_id) := by
  simp [DP_project_session_open, h]

/-- Witness for C2 at a concrete store with open session 5. -/
theorem session_open_conflict_rejected_witness :
    (DP_project_session_open ⟨5, 3, [], none⟩ ⟨true, true, true, true, true, 6⟩).1 = false ∧
    (DP_project_session_open ⟨5, 3, [], none⟩
        ⟨true, true, true, true, true, 6⟩).2.session_id
      = (⟨5, 3, [], none⟩ : Project).session_id ∧
    (DP_project_session_open ⟨5, 3, [], none⟩
        ⟨true, true, true, true, true, 6⟩).2.sequence_id
      = (⟨5, 3, [], none⟩ : Project).sequence_id ∧
    (DP_project_session_open ⟨5, 3, [], none⟩
        ⟨true, true, true, true, true, 6⟩).2.lastError
      = some (DPError.sessionAlreadyOpen (⟨5, 3, [], none⟩ : Project).session_id) :=
  session_open_conflict_rejected ⟨5, 3, [], none⟩ ⟨true, true, true, true, true, 6⟩
    (by decide)

/-- C9: session_close returns exactly one of -1 (no session open, state
untouched), 0 (session was open but the update failed) and 1 (session was
open and the update succeeded), and these three results are pairwise
distinct. -/
theorem session_close_tristate (prj : Project) (env : CloseEnv) :
    ((DP_project_session_close prj env).1 = -1 ∨
      (DP_project_session_close prj env).1 = 0 ∨
      (DP_project_session_close prj env).1 = 1) ∧
    (prj.session_id = 0 →
      (DP_project_session_close prj env).1 = -1 ∧
      (DP_project_session_close prj env).2 = prj) ∧
    (prj.session_id ≠ 0 → (env.bindOk && env.execOk) = true →
      (DP_project_session_close prj env).1 = 1) ∧
    (prj.session_id ≠ 0 → (env.bindOk && env.execOk) = false →
      (DP_project_session_close prj env).1 = 0) ∧
    ((-1 : Int) ≠ 0 ∧ (-1 : Int) ≠ 1 ∧ (0 : Int) ≠ 1) := by
  obtain ⟨cb, ce⟩ := env
  unfold DP_project_session_close
  by_cases h : prj.session_id = 0 <;> cases cb <;> cases ce <;> simp [h]

/-- Witness for C9: closing with no open session yields -1, a failing
update yields 0, a successful one yields 1. -/
theorem session_close_tristate_witness :
    (DP_project_session_close ⟨0, 7, [], none⟩ ⟨true, true⟩).1 = -1 ∧
    (DP_project_session_close ⟨5, 7, [], none⟩ ⟨false, true⟩).1 = 0 ∧
    (DP_project_session_close ⟨5, 7, [], none⟩ ⟨true, true⟩).1 = 1 :=
  ⟨((session_close_tristate ⟨0, 7, [], none⟩ ⟨true, true⟩).2.1 (by decide)).1,
   (session_close_tristate ⟨5, 7, [], none⟩ ⟨false, true⟩).2.2.2.1 (by decide) (by decide),
   (session_close_tristate ⟨5, 7, [], none⟩ ⟨true, true⟩).2.2.1 (by decide) (by decide)⟩

/-- C10: session_close on an open session clears the current session id
before the update is attempted, so whatever the update's outcome (result 0
or 1), the store afterwards reports no open session and a subsequent
session_open is no longer rejected for a conflicting open session: its
outcome is exactly the success of its own database writes, and when those
writes fail the error it sets is the database error, not the
conflicting-session rejection. -/
theorem session_close_clears_session_before_update (prj : Project)
    (env : CloseEnv) (env2 : OpenEnv) (h : prj.session_id ≠ 0) :
    (DP_project_session_close prj env).2.session_id = 0 ∧
    ((DP_project_session_close prj env).1 = 0 ∨
      (DP_project_session_close prj env).1 = 1) ∧
    (DP_project_session_open (DP_project_session_close prj env).2 env2).1
      = (env2.bindSourceOk && env2.bindParamOk && env2.bindProtocolOk && env2.bindPidOk
          && env2.execOk) ∧
    ((env2.bindSourceOk && env2.bindParamOk && env2.bindProtocolOk && env2.bindPidOk
        && env2.execOk) = false →
      (DP_project_session_open (DP_project_session_close prj env).2 env2).2.lastError
        = some DPError.dbError) := by
  obtain ⟨cb, ce⟩ := env
  obtain ⟨s, p, pr, pid, ex, rid⟩ := env2
  unfold DP_project_session_close DP_project_session_open
  cases cb <;> cases ce <;> cases s <;> cases p <;> cases pr <;> cases pid <;> cases ex <;>
    simp [h]

/-- Witness for C10 at a concrete store with open session 5 and a failing
close update. -/
theorem session_close_clears_session_before_update_witness :
    (DP_project_session_close ⟨5, 7, [], none⟩ ⟨false, false⟩).2.session_id = 0 ∧
    ((DP_project_session_close ⟨5, 7, [], none⟩ ⟨false, false⟩).1 = 0 ∨
      (DP_project_session_close ⟨5, 7, [], none⟩ ⟨false, false⟩).1 = 1) ∧
    (DP_project_session_open (DP_project_session_close ⟨5, 7, [], none⟩ ⟨false, false⟩).2
        ⟨true, true, true, true, true, 6⟩).1
      = (true && true && true && true && true : Bool) ∧
    ((true && true && true && true && true : Bool) = false →
      (DP_project_session_open (DP_project_session_close ⟨5, 7, [], none⟩ ⟨false, false⟩).2
          ⟨true, true, true, true, true, 6⟩).2.lastError
        = some DPError.dbError) :=
  session_close_clears_session_before_update ⟨5, 7, [], none⟩ ⟨false, false⟩
    ⟨true, true, true, true, true, 6⟩ (by decide)

/-- C4 (code bug): when preparing the session-open statement fails after
the message-insert statement was prepared, the cleanup loop finalizes the
uninitialized slot of the failed statement instead of the previously
prepared statement: the database is closed and open fails, but the
prepared statement 0 is never finalized, contradicting the claimed
all-released behavior. -/
theorem open_prepare_failure_leaks_prepared_statement :
    (DP_project_open_prepare (fun i => i == 0)).handle = none ∧
    (DP_project_open_prepare (fun i => i == 0)).dbClosed = true ∧
    (DP_project_open_prepare (fun i => i == 0)).finalized = [none] ∧
    some 0 ∉ (DP_project_open_prepare (fun i => i == 0)).finalized := by
  decide

/-- C7: in compatibility mode a batch of one translatable and one
non-translatable message forwards exactly the compatible form of the
translatable one, and in general every translatable message of any batch
reaches the forwarded batch, so a non-translatable message never discards
the rest of the batch. -/
theorem compat_mode_filters_batch {α : Type} (translate : α → Option α)
    (m1 m2 c : α) (h1 : translate m1 = some c) (h2 : translate m2 = none) :
    sendMessages true translate [m1, m2] = [c] ∧
    ∀ (msgs : List α) (m d : α), translate m = some d → m ∈ msgs →
      d ∈ sendMessages true translate msgs := by
  constructor
  · simp [sendMessages, filterCompatibleMessages, h1, h2]
  · intro msgs m d hm hmem
    simpa [sendMessages] using mem_filterCompatibleMessages translate msgs m d hm hmem

/-- Witness for C7: translating message 0 to 10 and dropping message 1
forwards exactly message 10. -/
theorem compat_mode_filters_batch_witness :
    sendMessages true (fun n : Nat => if n = 0 then some 10 else none) [0, 1] = [10] ∧
    ∀ (msgs : List Nat) (m d : Nat),
      (fun n : Nat => if n = 0 then some 10 else none) m = some d → m ∈ msgs →
      d ∈ sendMessages true (fun n : Nat => if n = 0 then some 10 else none) msgs :=
  compat_mode_filters_batch (fun n : Nat => if n = 0 then some 10 else none) 0 1 10
    (by simp) (by simp)

/-- C5: the header check returns a distinct negative error code for each
failure case, on success returns the (positive) user version found in the
file, is never 0, and the six error codes are pairwise distinct. -/
theorem project_check_distinct_codes (inp : CheckInput) :
    DP_project_check inp ≠ 0 ∧
    (DP_project_check inp < 0 ∨ 1 ≤ DP_project_check inp) ∧
    (inp.openOk = false → DP_project_check inp = DP_PROJECT_CHECK_ERROR_OPEN) ∧
    (inp.openOk = true → inp.readError = true →
      DP_project_check inp = DP_PROJECT_CHECK_ERROR_READ) ∧
    (inp.openOk = true → inp.readError = false → inp.bytes.length < 72 →
      DP_project_check inp = DP_PROJECT_CHECK_ERROR_HEADER) ∧
    (inp.openOk = true → inp.readError = false → 72 ≤ inp.bytes.length →
      (inp.bytes.take 16).map (· % 256) ≠ sqliteMagic →
      DP_project_check inp = DP_PROJECT_CHECK_ERROR_MAGIC) ∧
    (inp.openOk = true → inp.readError = false → 72 ≤ inp.bytes.length →
      (inp.bytes.take 16).map (· % 256) = sqliteMagic →
      DP_read_bigendian_int32 inp.bytes 68 ≠ DP_PROJECT_APPLICATION_ID →
      DP_project_check inp = DP_PROJECT_CHECK_ERROR_APPLICATION_ID) ∧
    (inp.openOk = true → inp.readError = false → 72 ≤ inp.bytes.length →
      (inp.bytes.take 16).map (· % 256) = sqliteMagic →
      DP_read_bigendian_int32 inp.bytes 68 = DP_PROJECT_APPLICATION_ID →
      DP_read_bigendian_int32 inp.bytes 60 < 1 →
      DP_project_check inp = DP_PROJECT_CHECK_ERROR_USER_VERSION) ∧
    (inp.openOk = true → inp.readError = false → 72 ≤ inp.bytes.length →
      (inp.bytes.take 16).map (· % 256) = sqliteMagic →
      DP_read_bigendian_int32 inp.bytes 68 = DP_PROJECT_APPLICATION_ID →
      1 ≤ DP_read_bigendian_int32 inp.bytes 60 →
      DP_project_check inp = DP_read_bigendian_int32 inp.bytes 60 ∧
        1 ≤ DP_project_check inp) ∧
    List.Pairwise (· ≠ ·)
      [DP_PROJECT_CHECK_ERROR_OPEN, DP_PROJECT_CHECK_ERROR_READ,
       DP_PROJECT_CHECK_ERROR_HEADER, DP_PROJECT_CHECK_ERROR_MAGIC,
       DP_PROJECT_CHECK_ERROR_APPLICATION_ID, DP_PROJECT_CHECK_ERROR_USER_VERSION] := by
  unfold DP_project_check DP_PROJECT_CHECK_ERROR_OPEN DP_PROJECT_CHECK_ERROR_READ
    DP_PROJECT_CHECK_ERROR_HEADER DP_PROJECT_CHECK_ERROR_MAGIC
    DP_PROJECT_CHECK_ERROR_APPLICATION_ID DP_PROJECT_CHECK_ERROR_USER_VERSION
    DP_PROJECT_APPLICATION_ID
  split_ifs with h1 h2 h3 h4 h5 h6 <;> simp_all <;> omega

/-- Witness for C5 at a concrete well-formed 72-byte header with user
version 1, and a concrete open failure. -/
theorem project_check_distinct_codes_witness :
    DP_project_check
        ⟨true, false,
         sqliteMagic ++ List.replicate 44 0 ++ [0, 0, 0, 1] ++ [0, 0, 0, 0]
           ++ [31, 7, 127, 64]⟩ ≠ 0 ∧
    DP_project_check ⟨false, false, []⟩ = DP_PROJECT_CHECK_ERROR_OPEN :=
  ⟨(project_check_distinct_codes _).1,
   (project_check_distinct_codes ⟨false, false, []⟩).2.2.1 rfl⟩

/-- Counterexample to C6: a 72-byte file with the correct magic and
application id but user version 2 makes the standalone check succeed with
the positive version 2, yet fails open's header validation, which demands
user version exactly 1. -/
def versionTwoHeader : List Nat :=
  sqliteMagic ++ List.replicate 44 0 ++ [0, 0, 0, 2] ++ [0, 0, 0, 0] ++ [31, 7, 127, 64]

/-- C6 counterexample: the standalone check returns the positive schema
version 2 on this file, but open's header validation rejects it. -/
theorem check_positive_but_open_header_fails :
    DP_project_check ⟨true, false, versionTwoHeader⟩ = 2 ∧
    (0 : Int) < 2 ∧
    open_header_ok versionTwoHeader = false := by
  refine ⟨by decide, by decide, by decide⟩

/-- C6 (amended): for an existing non-empty store file, open's header
validation passes exactly when the standalone check returns the schema
user-version constant itself (1); in particular open fails whenever the
standalone check fails, but a merely positive check result above 1 does
not pass open. -/
theorem open_header_ok_iff_check_user_version (bytes : List Nat) :
    open_header_ok bytes = true ↔
      DP_project_check ⟨true, false, bytes⟩ = DP_PROJECT_USER_VERSION := by
  unfold open_header_ok sqliteParses check_header pragmaApplicationId pragmaUserVersion
    DP_project_check DP_PROJECT_USER_VERSION DP_PROJECT_CHECK_ERROR_OPEN
    DP_PROJECT_CHECK_ERROR_READ DP_PROJECT_CHECK_ERROR_HEADER DP_PROJECT_CHECK_ERROR_MAGIC
    DP_PROJECT_CHECK_ERROR_APPLICATION_ID DP_PROJECT_CHECK_ERROR_USER_VERSION
  split_ifs with h1 h2 h3 h4 h5 h6 <;> simp_all <;> omega

/-! ### Sequencing of recorded messages -/

/-- The rows a run of fully successful record calls appends for session
`sid` when the counter stands at `start` before the run. -/
def expectedRows (sid start : Int) : List (DPMessage × RecordEnv) → List MessageRow
  | [] => []
  | (msg, _) :: rest =>
    ⟨sid, start + 1, msg.msg_type, msg.context_id, msg.serializedBody⟩
      :: expectedRows sid (start + 1) rest

/-- Helper: a record call that returned true took the full success path:
the counter advanced by one and exactly the row keyed by the new counter
value was appended. -/
lemma message_record_true_eq (prj : Project) (msg : DPMessage) (env : RecordEnv)
    (h : (DP_project_message_record prj msg env).1 = true) :
    (DP_project_message_record prj msg env).2
      = { prj with
          sequence_id := prj.sequence_id + 1,
          messages := prj.messages
            ++ [⟨prj.session_id, prj.sequence_id + 1, msg.msg_type, msg.context_id,
                 msg.serializedBody⟩] } := by
  unfold DP_project_message_record at h ⊢
  split_ifs at h ⊢ <;> simp_all

/-- Helper: a run of record calls that all returned true leaves the
session id untouched, advances the counter by the number of calls, and
appends exactly the expected rows. -/
lemma runRecords_all_true (calls : List (DPMessage × RecordEnv)) :
    ∀ prj : Project,
    (∀ b ∈ (runRecords prj calls).2, b = true) →
    (runRecords prj calls).1.session_id = prj.session_id ∧
    (runRecords prj calls).1.sequence_id = prj.sequence_id + calls.length ∧
    (runRecords prj calls).1.messages
      = prj.messages ++ expectedRows prj.session_id prj.sequence_id calls := by
  induction calls with
  | nil => intro prj _; simp [runRecords, expectedRows]
  | cons c rest ih =>
    intro prj hall
    obtain ⟨msg, env⟩ := c
    have hhead : (DP_project_message_record prj msg env).1 = true :=
      hall ((DP_project_message_record prj msg env).1) (by simp [runRecords])
    have hstate := message_record_true_eq prj msg env hhead
    have htail : ∀ b ∈ (runRecords (DP_project_message_record prj msg env).2 rest).2,
        b = true := by
      intro b hb
      refine hall b ?_
      simp only [runRecords, List.mem_cons]
      exact Or.inr hb
    obtain ⟨hsid, hseq, hmsgs⟩ := ih (DP_project_message_record prj msg env).2 htail
    have fsid : (DP_project_message_record prj msg env).2.session_id = prj.session_id := by
      rw [hstate]
    have fseq : (DP_project_message_record prj msg env).2.sequence_id
        = prj.sequence_id + 1 := by
      rw [hstate]
    have fmsgs : (DP_project_message_record prj msg env).2.messages
        = prj.messages
          ++ [⟨prj.session_id, prj.sequence_id + 1, msg.msg_type, msg.context_id,
               msg.serializedBody⟩] := by
      rw [hstate]
    refine ⟨?_, ?_, ?_⟩
    · simp [runRecords, hsid, fsid]
    · simp only [runRecords, List.length_cons]
      rw [hseq, fseq]
      push_cast
      ring
    · simp only [runRecords]
      rw [hmsgs, fmsgs, fsid, fseq]
      simp [expectedRows, List.append_assoc]

/-- Helper: the sequence ids of the expected rows, counted from `start`,
are start+1, start+2, ..., start+n. -/
lemma expectedRows_map_sequence (sid : Int) (calls : List (DPMessage × RecordEnv)) :
    ∀ start : Int,
    (expectedRows sid start calls).map (fun r => r.sequence_id)
      = (List.range calls.length).map (fun i : Nat => start + 1 + (i : Int)) := by
  induction calls with
  | nil => intro start; simp [expectedRows]
  | cons c rest ih =>
    intro start
    obtain ⟨msg, env⟩ := c
    simp only [expectedRows, List.map_cons, List.length_cons,
      List.range_succ_eq_map, List.map_map, ih (start + 1)]
    congr 1
    · simp
    · apply List.map_congr_left
      intro i _
      simp only [Function.comp_apply]
      push_cast
      ring

/-- Helper: the session ids of the expected rows are all `sid`. -/
lemma expectedRows_map_session (sid : Int) (calls : List (DPMessage × RecordEnv)) :
    ∀ start : Int,
    (expectedRows sid start calls).map (fun r => r.session_id)
      = List.replicate calls.length sid := by
  induction calls with
  | nil => intro start; simp [expectedRows]
  | cons c rest ih =>
    intro start
    obtain ⟨msg, env⟩ := c
    simp [expectedRows, List.replicate_succ, ih (start + 1)]

/-- C1: after a successful session_open (which resets the counter to 0), N
successful message_record calls insert rows whose sequence ids are exactly
1, 2, ..., N with no gaps, all keyed by the newly assigned session id. -/
theorem message_record_sequence_one_to_n (prj : Project) (oenv : OpenEnv)
    (calls : List (DPMessage × RecordEnv))
    (hopen : (DP_project_session_open prj oenv).1 = true)
    (hrow : oenv.newRowId ≠ 0)
    (hall : ∀ b ∈ (runRecords (DP_project_session_open prj oenv).2 calls).2, b = true) :
    ((runRecords (DP_project_session_open prj oenv).2 calls).1.messages.drop
        prj.messages.length).map (fun r => r.sequence_id)
      = (List.range calls.length).map (fun i : Nat => (i : Int) + 1) ∧
    ((runRecords (DP_project_session_open prj oenv).2 calls).1.messages.drop
        prj.messages.length).map (fun r => r.session_id)
      = List.replicate calls.length oenv.newRowId := by
  have hstate : (DP_project_session_open prj oenv).2
      = { prj with session_id := oenv.newRowId, sequence_id := 0 } := by
    unfold DP_project_session_open at hopen ⊢
    split_ifs at hopen ⊢ <;> simp_all
  obtain ⟨hsid, hseq, hmsgs⟩ :=
    runRecords_all_true calls (DP_project_session_open prj oenv).2 hall
  have fsid : (DP_project_session_open prj oenv).2.session_id = oenv.newRowId := by
    rw [hstate]
  have fseq : (DP_project_session_open prj oenv).2.sequence_id = 0 := by
    rw [hstate]
  have fmsg : (DP_project_session_open prj oenv).2.messages = prj.messages := by
    rw [hstate]
  rw [fsid, fseq, fmsg] at hmsgs
  rw [hmsgs, List.drop_left]
  constructor
  · rw [expectedRows_map_sequence]
    apply List.map_congr_left
    intro i _
    omega
  · rw [expectedRows_map_session]

/-- Witness for C1: a fresh session followed by three successful records
yields sequence ids 1, 2, 3. -/
theorem message_record_sequence_one_to_n_witness :
    ((runRecords
        (DP_project_session_open ⟨0, 9, [], none⟩ ⟨true, true, true, true, true, 1⟩).2
        [(⟨10, 2, [1, 2, 3]⟩, ⟨true, true, true, true, true, true⟩),
         (⟨11, 2, [4]⟩, ⟨true, true, true, true, true, true⟩),
         (⟨12, 3, [5, 6]⟩, ⟨true, true, true, true, true, true⟩)]).1.messages.drop
          (⟨0, 9, [], none⟩ : Project).messages.length).map (fun r => r.sequence_id)
      = (List.range 3).map (fun i : Nat => (i : Int) + 1) ∧
    ((runRecords
        (DP_project_session_open ⟨0, 9, [], none⟩ ⟨true, true, true, true, true, 1⟩).2
        [(⟨10, 2, [1, 2, 3]⟩, ⟨true, true, true, true, true, true⟩),
         (⟨11, 2, [4]⟩, ⟨true, true, true, true, true, true⟩),
         (⟨12, 3, [5, 6]⟩, ⟨true, true, true, true, true, true⟩)]).1.messages.drop
          (⟨0, 9, [], none⟩ : Project).messages.length).map (fun r => r.session_id)
      = List.replicate 3 1 :=
  message_record_sequence_one_to_n ⟨0, 9, [], none⟩ ⟨true, true, true, true, true, 1⟩
    [(⟨10, 2, [1, 2, 3]⟩, ⟨true, true, true, true, true, true⟩),
     (⟨11, 2, [4]⟩, ⟨true, true, true, true, true, true⟩),
     (⟨12, 3, [5, 6]⟩, ⟨true, true, true, true, true, true⟩)]
    (by decide) (by decide) (by decide)

/-- Helper: a record call in an open session with a nonempty body whose
first bind succeeded but whose remaining binds or insert step failed
returns false with the counter advanced and no row appended. -/
lemma message_record_fail_after_first_bind (prj : Project) (msg : DPMessage)
    (env : RecordEnv) (hs : prj.session_id ≠ 0) (hb : msg.serializedBody.length ≠ 0)
    (h1 : env.bindSessionOk = true)
    (hfail : (env.bindSeqOk && env.bindTypeOk && env.bindCtxOk && env.bindBlobOk
        && env.execOk) = false) :
    DP_project_message_record prj msg env
      = (false, { prj with
          sequence_id := prj.sequence_id + 1,
          lastError := some DPError.dbError }) := by
  unfold DP_project_message_record
  simp [hs, hb, h1, hfail]

/-- Helper: a fully successful record call in an open session appends
exactly the row keyed by the incremented counter. -/
lemma message_record_all_ok (prj : Project) (msg : DPMessage) (env : RecordEnv)
    (hs : prj.session_id ≠ 0) (hb : msg.serializedBody.length ≠ 0)
    (hok : env.allOk = true) :
    DP_project_message_record prj msg env
      = (true, { prj with
          sequence_id := prj.sequence_id + 1,
          messages := prj.messages
            ++ [⟨prj.session_id, prj.sequence_id + 1, msg.msg_type, msg.context_id,
                 msg.serializedBody⟩] }) := by
  obtain ⟨b1, b2, b3, b4, b5, b6⟩ := env
  simp only [RecordEnv.allOk, Bool.and_eq_true] at hok
  unfold DP_project_message_record
  simp_all

/-- C3: a record call in an open session that reaches its insert (the body
serialized and the first bind succeeded) and then fails has still
incremented the sequence counter — the increment is the argument of the
sequence bind, evaluated before the insert's outcome is known — so the
failed call consumes a sequence number, appends no row, and the next fully
successful record gets the number after the consumed one, leaving a gap in
the recorded stream. -/
theorem message_record_failed_insert_consumes_sequence (prj : Project)
    (msg msg2 : DPMessage) (env env2 : RecordEnv)
    (hs : prj.session_id ≠ 0)
    (hb : msg.serializedBody.length ≠ 0)
    (h1 : env.bindSessionOk = true)
    (hfail : (env.bindSeqOk && env.bindTypeOk && env.bindCtxOk && env.bindBlobOk
        && env.execOk) = false)
    (hb2 : msg2.serializedBody.length ≠ 0)
    (hok2 : env2.allOk = true) :
    (DP_project_message_record prj msg env).1 = false ∧
    (DP_project_message_record prj msg env).2.sequence_id = prj.sequence_id + 1 ∧
    (DP_project_message_record prj msg env).2.messages = prj.messages ∧
    (DP_project_message_record (DP_project_message_record prj msg env).2 msg2 env2).1
      = true ∧
    (DP_project_message_record (DP_project_message_record prj msg env).2 msg2
        env2).2.messages
      = prj.messages
        ++ [⟨prj.session_id, prj.sequence_id + 2, msg2.msg_type, msg2.context_id,
             msg2.serializedBody⟩] := by
  have h1eq := message_record_fail_after_first_bind prj msg env hs hb h1 hfail
  have h2eq := message_record_all_ok
    { prj with sequence_id := prj.sequence_id + 1, lastError := some DPError.dbError }
    msg2 env2 hs hb2 hok2
  refine ⟨by rw [h1eq], by rw [h1eq], by rw [h1eq], ?_, ?_⟩
  · rw [h1eq]
    rw [h2eq]
  · rw [h1eq]
    rw [h2eq]
    simp [add_assoc]

/-- Witness for C3: in session 4 with the counter at 0, a record whose
insert step fails burns sequence number 1 and the next successful record
is stored with sequence number 2. -/
theorem message_record_failed_insert_consumes_sequence_witness :
    (DP_project_message_record ⟨4, 0, [], none⟩ ⟨10, 2, [1]⟩
        ⟨true, true, true, true, true, false⟩).1 = false ∧
    (DP_project_message_record ⟨4, 0, [], none⟩ ⟨10, 2, [1]⟩
        ⟨true, true, true, true, true, false⟩).2.sequence_id
      = (⟨4, 0, [], none⟩ : Project).sequence_id + 1 ∧
    (DP_project_message_record ⟨4, 0, [], none⟩ ⟨10, 2, [1]⟩
        ⟨true, true, true, true, true, false⟩).2.messages
      = (⟨4, 0, [], none⟩ : Project).messages ∧
    (DP_project_message_record
        (DP_project_message_record ⟨4, 0, [], none⟩ ⟨10, 2, [1]⟩
          ⟨true, true, true, true, true, false⟩).2
        ⟨11, 3, [7]⟩ ⟨true, true, true, true, true, true⟩).1 = true ∧
    (DP_project_message_record
        (DP_project_message_record ⟨4, 0, [], none⟩ ⟨10, 2, [1]⟩
          ⟨true, true, true, true, true, false⟩).2
        ⟨11, 3, [7]⟩ ⟨true, true, true, true, true, true⟩).2.messages
      = (⟨4, 0, [], none⟩ : Project).messages
        ++ [⟨(⟨4, 0, [], none⟩ : Project).session_id,
             (⟨4, 0, [], none⟩ : Project).sequence_id + 2, 11, 3, [7]⟩] :=
  message_record_failed_insert_consumes_sequence ⟨4, 0, [], none⟩ ⟨10, 2, [1]⟩ ⟨11, 3, [7]⟩
    ⟨true, true, true, true, true, false⟩ ⟨true, true, true, true, true, true⟩
    (by decide) (by decide) rfl (by decide) (by decide) (by decide)

/-! ### Catch-up progress -/

/-- Helper: once the catch-up target is cleared, delivering further
batches emits nothing and changes nothing. -/
lemma runCatchup_finished (cs : List Nat) (st : CatchupState) (h : st.catchupTo = 0) :
    runCatchup st cs = (st, []) := by
  induction cs with
  | nil => rfl
  | cons c rest ih => simp [runCatchup, handleMessagesCatchup, h, ih]

/-- Helper: an interior progress value is strictly below 100 while the
caught-up count is still below the target. -/
lemma catchup_div_lt_100 (t c : Nat) (ht : 0 < t) (hc : c < t) :
    100 * c / t < 100 := by
  exact Nat.div_lt_of_lt_mul (by omega)

/-- Helper: consing onto a list keeps its known last element. -/
lemma getLast?_cons_of_getLast? {α : Type} (x a : α) (l : List α)
    (h : l.getLast? = some a) : (x :: l).getLast? = some a := by
  cases l with
  | nil => simp at h
  | cons y ys =>
    rw [List.getLast?_cons_cons]
    exact h

/-- Helper invariant for the catch-up run: from any state whose progress
field matches the integer percentage of its counters and whose count is
still below the positive target, the emitted values strictly ascend above
the current progress, stay at most 100, and end at exactly 100 once the
delivered batches reach the target. -/
lemma runCatchup_inv (t : Nat) (ht : 0 < t) :
    ∀ (cs : List Nat) (st : CatchupState),
      st.catchupTo = t → st.caughtUp < t →
      st.catchupProgress = 100 * st.caughtUp / t →
      List.Chain' (· < ·) (st.catchupProgress :: (runCatchup st cs).2) ∧
      (∀ e ∈ (runCatchup st cs).2, e ≤ 100) ∧
      (t ≤ st.caughtUp + cs.sum → (runCatchup st cs).2.getLast? = some 100) := by
  intro cs
  induction cs with
  | nil =>
    intro st hTo hLt hP
    refine ⟨by simp [runCatchup], by simp [runCatchup], ?_⟩
    intro hsum
    simp only [List.sum_nil] at hsum
    omega
  | cons c cs ih =>
    intro st hTo hLt hP
    have hpos : 0 < st.catchupTo := by omega
    by_cases hreach : st.catchupTo ≤ st.caughtUp + c
    · have hstep : handleMessagesCatchup st c
          = ({ st with caughtUp := st.caughtUp + c, catchupTo := 0 }, [100]) := by
        simp only [handleMessagesCatchup]
        rw [if_pos hpos, if_pos hreach]
      have hrest : runCatchup
          ({ st with caughtUp := st.caughtUp + c, catchupTo := 0 } : CatchupState) cs
          = ({ st with caughtUp := st.caughtUp + c, catchupTo := 0 }, []) :=
        runCatchup_finished cs _ rfl
      have hrun : (runCatchup st (c :: cs)).2 = [100] := by
        simp [runCatchup, hstep, hrest]
      rw [hrun]
      refine ⟨?_, by simp, by simp⟩
      refine List.chain'_cons.mpr ⟨?_, by simp⟩
      rw [hP]
      exact catchup_div_lt_100 t st.caughtUp ht hLt
    · have hLt1 : st.caughtUp + c < t := by omega
      by_cases hne : 100 * (st.caughtUp + c) / st.catchupTo ≠ st.catchupProgress
      · have hstep : handleMessagesCatchup st c
            = (CatchupState.mk st.catchupTo (st.caughtUp + c)
                 (100 * (st.caughtUp + c) / st.catchupTo),
               [100 * (st.caughtUp + c) / st.catchupTo]) := by
          simp only [handleMessagesCatchup]
          rw [if_pos hpos, if_neg hreach, if_pos hne]
        obtain ⟨ch, bd, last⟩ := ih
          (CatchupState.mk st.catchupTo (st.caughtUp + c)
            (100 * (st.caughtUp + c) / st.catchupTo))
          (by simpa using hTo) (by simpa using hLt1) (by simp [hTo])
        have hrun : (runCatchup st (c :: cs)).2
            = 100 * (st.caughtUp + c) / st.catchupTo
                :: (runCatchup
                    (CatchupState.mk st.catchupTo (st.caughtUp + c)
                      (100 * (st.caughtUp + c) / st.catchupTo)) cs).2 := by
          simp [runCatchup, hstep]
        rw [hrun]
        have hmono : st.catchupProgress < 100 * (st.caughtUp + c) / st.catchupTo := by
          refine Nat.lt_of_le_of_ne ?_ (Ne.symm hne)
          rw [hP, hTo]
          exact Nat.div_le_div_right (by omega)
        refine ⟨List.chain'_cons.mpr ⟨hmono, by simpa using ch⟩, ?_, ?_⟩
        · intro e he
          rcases List.mem_cons.mp he with he | he
          · subst he
            rw [hTo]
            exact Nat.le_of_lt (catchup_div_lt_100 t (st.caughtUp + c) ht hLt1)
          · exact bd e he
        · intro hsum
          refine getLast?_cons_of_getLast? _ _ _ (last ?_)
          simp only [List.sum_cons] at hsum
          simpa using (by omega : t ≤ st.caughtUp + c + cs.sum)
      · push_neg at hne
        have hstep : handleMessagesCatchup st c
            = ({ st with caughtUp := st.caughtUp + c }, []) := by
          simp only [handleMessagesCatchup]
          rw [if_pos hpos, if_neg hreach, if_neg (by simpa using hne)]
        obtain ⟨ch, bd, last⟩ := ih { st with caughtUp := st.caughtUp + c }
          (by simpa using hTo) (by simpa using hLt1)
          (by simpa using (by rw [← hne, hTo] : st.catchupProgress
              = 100 * (st.caughtUp + c) / t).symm ▸ rfl)
        have hrun : (runCatchup st (c :: cs)).2
            = (runCatchup ({ st with caughtUp := st.caughtUp + c } : CatchupState) cs).2 := by
          simp [runCatchup, hstep]
        rw [hrun]
        refine ⟨by simpa using ch, bd, ?_⟩
        intro hsum
        refine last ?_
        simp only [List.sum_cons] at hsum
        simpa using (by omega : t ≤ st.caughtUp + c + cs.sum)

/-- C8: after a catch-up announcement with a positive target, delivering
batches until the caught-up count reaches the target emits a strictly
increasing sequence of progress values within 0..100 whose final value is
exactly 100. -/
theorem catchup_progress_strictly_increasing (target : Nat) (batches : List Nat)
    (ht : 0 < target) (hsum : target ≤ batches.sum) :
    List.Chain' (· < ·) (catchupTrace target batches) ∧
    (∀ e ∈ catchupTrace target batches, e ≤ 100) ∧
    (catchupTrace target batches).getLast? = some 100 := by
  have h0 : catchupAnnounce target = (⟨target, 0, 0⟩, [0]) := by
    unfold catchupAnnounce
    rw [if_pos ht]
  obtain ⟨ch, bd, last⟩ :=
    runCatchup_inv target ht batches ⟨target, 0, 0⟩ rfl ht (by simp)
  have htr : catchupTrace target batches
      = 0 :: (runCatchup (⟨target, 0, 0⟩ : CatchupState) batches).2 := by
    simp [catchupTrace, h0]
  rw [htr]
  refine ⟨by simpa using ch, ?_, ?_⟩
  · intro e he
    rcases List.mem_cons.mp he with he | he
    · omega
    · exact bd e he
  · exact getLast?_cons_of_getLast? _ _ _ (last (by simpa using hsum))

/-- Witness for C8: target 3 delivered in three single-message batches
emits 0, 33, 66, 100. -/
theorem catchup_progress_strictly_increasing_witness :
    List.Chain' (· < ·) (catchupTrace 3 [1, 1, 1]) ∧
    (∀ e ∈ catchupTrace 3 [1, 1, 1], e ≤ 100) ∧
    (catchupTrace 3 [1, 1, 1]).getLast? = some 100 :=
  catchup_progress_strictly_increasing 3 [1, 1, 1] (by decide) (by decide)

end Drawpile
